import Mathlib

/-!
Verification of the tick-by-tick control loop of `WooferRobot.py`
(quadruped control core).  The mutable attributes of the Python object
become a Lean structure `WooferRobot`; the collaborators
(state estimator, contact estimator, gait planner, swing controller,
QP balance controller, kinematics) are oracles passed in a
`Collaborators` record, returning `Except Err _` where the Python code
can see an exception.  `numpy` `(w, cap)` arrays become lists of
columns (`List (List ℚ)`), column `j` of the array being element `j`
of the list.  Floats are modelled as rationals.  `step` additionally
emits a trace of `Event`s, one per collaborator call / section of the
method body, so that call order and call counts can be stated.
-/

/-- A fixed-width numeric vector (a numpy 1-d array of that length). -/
abbrev Vec (n : Nat) : Type := Fin n → ℚ

/-- The column written into a recorder channel for a vector value. -/
def vecToList {n : Nat} (v : Vec n) : List ℚ := List.ofFn v

/-- The state-estimate dictionary: keys `p`, `p_d`, `q`, `w`, `j`. -/
structure RobotState where
  p : Vec 3
  p_d : Vec 3
  q : Vec 4
  w : Vec 3
  j : Vec 12

/-- Error kinds a collaborator can raise (spec taxonomy). -/
inductive Err where
  | estimationError
  | plannerError
  | infeasibleSolveError
deriving DecidableEq

/-- `WOOFER_CONFIG`, restricted to the field the core reads (`MASS`). -/
structure WooferConfig where
  MASS : ℚ

/-- Output tuple of `gait_planner.update`. -/
structure GaitOut where
  step_locations : Vec 12
  p_step_locations : Vec 12
  p_ref : Vec 3
  rpy_ref : Vec 3
  active_feet : Vec 4
  phase : ℚ
  step_phase : ℚ

/-- Output tuple of `swing_controller.update`. -/
structure SwingOut where
  swing_torques : Vec 12
  swing_forces : Vec 12
  swing_trajectory : Vec 12
  foot_positions : Vec 12

/-- Output tuple of `qp_controller.Update`. -/
structure QPOut where
  qp_torques : Vec 12
  foot_forces : Vec 12
  ref_wrench : Vec 6

/-- The rearranged state tuple handed to the QP solver
(`(p, p_d, q, w, j)`, line 118 of the source). -/
abbrev QPState : Type := Vec 3 × Vec 3 × Vec 4 × Vec 3 × Vec 12

/-- The collaborators injected into the robot, with the call shapes of
their call sites in `WooferRobot.step`.  Fallible calls return
`Except Err`; `LegForwardKinematics` is a pure function of
`(state.q, state.j)`.  `Sim`, `GaitCfg`, `SwingCfg`, `QPCfg` are the
opaque simulator handle and config bundles the core only forwards. -/
structure Collaborators (Sim GaitCfg SwingCfg QPCfg : Type) where
  state_estimator : Sim → Except Err RobotState
  contact_estimator : Sim → Except Err (Vec 4)
  gait_planner : RobotState → Vec 4 → ℚ → WooferConfig → GaitCfg → Except Err GaitOut
  swing_controller : RobotState → ℚ → Vec 12 → Vec 12 → Vec 4 → WooferConfig → SwingCfg →
    Except Err SwingOut
  kinematics : Vec 4 → Vec 12 → Vec 12
  qp_controller : QPState → Vec 12 → Vec 4 → Vec 3 → Vec 3 → Vec 12 → WooferConfig → QPCfg →
    Except Err QPOut

/-- Modelled from the spec: `RunningMax` lives in `MathUtils`, which is
not among the given sources.  Spec section 4.2: `update(vector)` sets
`max[k] ← max(max[k], |vector[k]|)` for each channel `k`. -/
def RunningMaxUpdate {n : Nat} (cur v : Vec n) : Vec n :=
  fun k => max (cur k) |v k|

/-- Modelled from the spec: the running maximum starts at zero. -/
def RunningMaxInit (n : Nat) : Vec n := fun _ => 0

/-- Trace events: one per collaborator call or section of the body of
`WooferRobot.step` / `WooferRobot.log_data`.  The QP event carries the
`previousFootForces` argument passed to the solver; the running-max
events carry the vector given to `Update`. -/
inductive Event where
  | callStateEstimator
  | callContactEstimator
  | callGaitPlanner
  | callSwingController
  | callKinematics
  | callQPController (previousFootForces : Vec 12)
  | expandMaskEv
  | blendEv
  | updateMaxForces (v : Vec 12)
  | updateMaxTorques (v : Vec 12)
  | logDataEv
  | advanceTime

/-- True exactly on `updateMaxForces` events. -/
def isMaxForcesUpdate : Event → Bool
  | Event.updateMaxForces _ => true
  | _ => false

/-- True exactly on `updateMaxTorques` events. -/
def isMaxTorquesUpdate : Event → Bool
  | Event.updateMaxTorques _ => true
  | _ => false

/-- The mutable attributes of the Python `WooferRobot` object.
Attributes that `__init__` leaves unset (`self.state` and
`self.contacts` are set to `None`; `swing_forces`, `active_feet`,
`feet_locations`, `ref_wrench`, `torques` are first created inside
`step`) are `Option`s, `none` until first assignment.  The recorder
dictionary `self.data` becomes one field per key; the dictionary keys
`swing_trajectory` / `foot_positions` get a `_log` suffix because the
object also has plain attributes of those names. -/
structure WooferRobot where
  dt : ℚ
  t : ℚ
  i : Nat
  state : Option RobotState
  contacts : Option (Vec 4)
  max_torques : Vec 12
  max_forces : Vec 12
  torque_history : List (List ℚ)
  force_history : List (List ℚ)
  ref_wrench_history : List (List ℚ)
  contacts_history : List (List ℚ)
  active_feet_history : List (List ℚ)
  swing_torque_history : List (List ℚ)
  swing_force_history : List (List ℚ)
  swing_trajectory_log : List (List ℚ)
  foot_positions_log : List (List ℚ)
  phase_history : List (List ℚ)
  step_phase_history : List (List ℚ)
  foot_forces : Vec 12
  phase : ℚ
  step_phase : ℚ
  step_locations : Vec 12
  p_step_locations : Vec 12
  swing_torques : Vec 12
  swing_trajectory : Vec 12
  foot_positions : Vec 12
  active_feet : Option (Vec 4)
  swing_forces : Option (Vec 12)
  feet_locations : Option (Vec 12)
  ref_wrench : Option (Vec 6)
  torques : Option (Vec 12)

/-- A fresh `(w, n)` channel: `np.zeros((w, init_data_size))` with
`init_data_size = 10`, as a list of 10 zero columns of width `w`. -/
def initChannel (w : Nat) : List (List ℚ) :=
  List.replicate 10 (List.replicate w 0)

/-- `np.array([0, 0, WOOFER_CONFIG.MASS*9.81/4] * 4)`: the pattern
`[0, 0, m]` repeated once per leg. -/
def initFootForces (cfg : WooferConfig) : Vec 12 :=
  fun k => ![(0 : ℚ), 0, cfg.MASS * (981 / 100) / 4] ⟨k.val % 3, Nat.mod_lt _ (by norm_num)⟩

/-- `WooferRobot.__init__` (minus the collaborator references, which
live in the `Collaborators` record). -/
def WooferRobot.init (cfg : WooferConfig) (dt : ℚ) : WooferRobot where
  dt := dt
  t := 0
  i := 0
  state := none
  contacts := none
  max_torques := RunningMaxInit 12
  max_forces := RunningMaxInit 12
  torque_history := initChannel 12
  force_history := initChannel 12
  ref_wrench_history := initChannel 6
  contacts_history := initChannel 4
  active_feet_history := initChannel 4
  swing_torque_history := initChannel 12
  swing_force_history := initChannel 12
  swing_trajectory_log := initChannel 12
  foot_positions_log := initChannel 12
  phase_history := initChannel 1
  step_phase_history := initChannel 1
  foot_forces := initFootForces cfg
  phase := 0
  step_phase := 0
  step_locations := fun _ => 0
  p_step_locations := fun _ => 0
  swing_torques := fun _ => 0
  swing_trajectory := fun _ => 0
  foot_positions := fun _ => 0
  active_feet := none
  swing_forces := none
  feet_locations := none
  ref_wrench := none
  torques := none

/-- `self.active_feet[[0,0,0,1,1,1,2,2,2,3,3,3]]` (line 137): fancy
indexing of the 4-wide mask by the fixed 12-entry index list. -/
def expandMask (m : Vec 4) : Vec 12 :=
  fun k => m (![0, 0, 0, 1, 1, 1, 2, 2, 2, 3, 3, 3] k)

/-- `active_feet_12 * qp_torques + (1 - active_feet_12) * self.swing_torques`
(line 140), elementwise. -/
def blend (m stance swing : Vec 12) : Vec 12 :=
  fun k => m k * stance k + (1 - m k) * swing k

/-- One channel's growth step:
`np.append(buf, np.zeros((np.shape(buf)[0], 1000)), axis=1)` — append
1000 zero columns, the zero column having the channel's own width
(`shape[0]`, here the width of the first column). -/
def growChannel (buf : List (List ℚ)) : List (List ℚ) :=
  buf ++ List.replicate 1000 (List.replicate (buf.headD []).length 0)

/-- The growth guard of `log_data` (lines 159-162): if
`self.i > data_len - 1`, where `data_len` is the column count of
`torque_history`, grow every channel. -/
def grow_if_needed (s : WooferRobot) : WooferRobot :=
  let data_len := s.torque_history.length
  if s.i > data_len - 1 then
    { s with
      torque_history := growChannel s.torque_history
      force_history := growChannel s.force_history
      ref_wrench_history := growChannel s.ref_wrench_history
      contacts_history := growChannel s.contacts_history
      active_feet_history := growChannel s.active_feet_history
      swing_torque_history := growChannel s.swing_torque_history
      swing_force_history := growChannel s.swing_force_history
      swing_trajectory_log := growChannel s.swing_trajectory_log
      foot_positions_log := growChannel s.foot_positions_log
      phase_history := growChannel s.phase_history
      step_phase_history := growChannel s.step_phase_history }
  else s

/-- The grown record (the body of the `for key in self.data.keys()`
loop applied to every channel); `grow_if_needed` is this guarded by the
capacity check. -/
def growAll (s : WooferRobot) : WooferRobot :=
  { s with
    torque_history := growChannel s.torque_history
    force_history := growChannel s.force_history
    ref_wrench_history := growChannel s.ref_wrench_history
    contacts_history := growChannel s.contacts_history
    active_feet_history := growChannel s.active_feet_history
    swing_torque_history := growChannel s.swing_torque_history
    swing_force_history := growChannel s.swing_force_history
    swing_trajectory_log := growChannel s.swing_trajectory_log
    foot_positions_log := growChannel s.foot_positions_log
    phase_history := growChannel s.phase_history
    step_phase_history := growChannel s.step_phase_history }

/-- The body of `log_data` after the growth guard (lines 165-177): the
two extra `RunningMax.Update` calls, then the column writes at column
`self.i`.  The `Option` attributes are read with default zero; in the
source they are always assigned before `log_data` runs (reading them
earlier would be an `AttributeError`). -/
def write_logs (s : WooferRobot) : WooferRobot :=
  { s with
    max_forces := RunningMaxUpdate s.max_forces s.foot_forces
    max_torques := RunningMaxUpdate s.max_torques (s.torques.getD (fun _ => 0))
    torque_history := s.torque_history.set s.i (vecToList (s.torques.getD (fun _ => 0)))
    force_history := s.force_history.set s.i (vecToList s.foot_forces)
    ref_wrench_history :=
      s.ref_wrench_history.set s.i (vecToList (s.ref_wrench.getD (fun _ => 0)))
    contacts_history := s.contacts_history.set s.i (vecToList (s.contacts.getD (fun _ => 0)))
    active_feet_history :=
      s.active_feet_history.set s.i (vecToList (s.active_feet.getD (fun _ => 0)))
    swing_torque_history := s.swing_torque_history.set s.i (vecToList s.swing_torques)
    swing_force_history :=
      s.swing_force_history.set s.i (vecToList (s.swing_forces.getD (fun _ => 0)))
    swing_trajectory_log := s.swing_trajectory_log.set s.i (vecToList s.swing_trajectory)
    foot_positions_log := s.foot_positions_log.set s.i (vecToList s.foot_positions)
    phase_history := s.phase_history.set s.i [s.phase]
    step_phase_history := s.step_phase_history.set s.i [s.step_phase] }

/-- `WooferRobot.log_data`: growth guard, duplicate running-max
updates, column writes.  Also returns the events it performs. -/
def log_data (s : WooferRobot) : List Event × WooferRobot :=
  let s1 := grow_if_needed s
  ([Event.updateMaxForces s1.foot_forces,
    Event.updateMaxTorques (s1.torques.getD (fun _ => 0)),
    Event.logDataEv],
   write_logs s1)

/-- `WooferRobot.step`: one control tick.  Returns the event trace,
the object state after the tick (on failure, the partially mutated
state at the point the exception escaped), and either the returned
torque vector or the propagated error. -/
def step {Sim GaitCfg SwingCfg QPCfg : Type}
    (C : Collaborators Sim GaitCfg SwingCfg QPCfg)
    (cfg : WooferConfig) (gcfg : GaitCfg) (scfg : SwingCfg) (qcfg : QPCfg)
    (s : WooferRobot) (sim : Sim) :
    List Event × WooferRobot × Except Err (Vec 12) :=
  match C.state_estimator sim with
  | Except.error e => ([Event.callStateEstimator], s, Except.error e)
  | Except.ok st =>
    let s1 : WooferRobot := { s with state := some st }
    match C.contact_estimator sim with
    | Except.error e =>
      ([Event.callStateEstimator, Event.callContactEstimator], s1, Except.error e)
    | Except.ok con =>
      let s2 : WooferRobot := { s1 with contacts := some con }
      match C.gait_planner st con s2.t cfg gcfg with
      | Except.error e =>
        ([Event.callStateEstimator, Event.callContactEstimator, Event.callGaitPlanner],
         s2, Except.error e)
      | Except.ok g =>
        let s3 : WooferRobot :=
          { s2 with
            step_locations := g.step_locations
            p_step_locations := g.p_step_locations
            active_feet := some g.active_feet
            phase := g.phase
            step_phase := g.step_phase }
        match C.swing_controller st g.step_phase g.step_locations g.p_step_locations
            g.active_feet cfg scfg with
        | Except.error e =>
          ([Event.callStateEstimator, Event.callContactEstimator, Event.callGaitPlanner,
            Event.callSwingController], s3, Except.error e)
        | Except.ok sw =>
          let s4 : WooferRobot :=
            { s3 with
              swing_torques := sw.swing_torques
              swing_forces := some sw.swing_forces
              swing_trajectory := sw.swing_trajectory
              foot_positions := sw.foot_positions }
          let qp_state : QPState := (st.p, st.p_d, st.q, st.w, st.j)
          let feet := C.kinematics st.q st.j
          let s5 : WooferRobot := { s4 with feet_locations := some feet }
          match C.qp_controller qp_state feet g.active_feet g.p_ref g.rpy_ref
              s5.foot_forces cfg qcfg with
          | Except.error e =>
            ([Event.callStateEstimator, Event.callContactEstimator, Event.callGaitPlanner,
              Event.callSwingController, Event.callKinematics,
              Event.callQPController s5.foot_forces], s5, Except.error e)
          | Except.ok qp =>
            let s6 : WooferRobot :=
              { s5 with foot_forces := qp.foot_forces, ref_wrench := some qp.ref_wrench }
            let active_feet_12 := expandMask g.active_feet
            let torques := blend active_feet_12 qp.qp_torques sw.swing_torques
            let s7 : WooferRobot :=
              { s6 with
                torques := some torques
                max_forces := RunningMaxUpdate s6.max_forces s6.foot_forces
                max_torques := RunningMaxUpdate s6.max_torques torques }
            let logOut := log_data s7
            let s8 : WooferRobot :=
              { logOut.2 with
                t := logOut.2.t + logOut.2.dt
                i := logOut.2.i + 1 }
            ([Event.callStateEstimator, Event.callContactEstimator, Event.callGaitPlanner,
              Event.callSwingController, Event.callKinematics,
              Event.callQPController s5.foot_forces,
              Event.expandMaskEv, Event.blendEv,
              Event.updateMaxForces s6.foot_forces, Event.updateMaxTorques torques]
             ++ logOut.1 ++ [Event.advanceTime],
             s8, Except.ok torques)

/-- Iterated ticks: the external driver calls `step` once per sensor
snapshot, keeping the mutated object state (on failure the tick's
result is discarded, the object persists). -/
def run {Sim GaitCfg SwingCfg QPCfg : Type}
    (C : Collaborators Sim GaitCfg SwingCfg QPCfg)
    (cfg : WooferConfig) (gcfg : GaitCfg) (scfg : SwingCfg) (qcfg : QPCfg) :
    WooferRobot → List Sim → WooferRobot
  | s, [] => s
  | s, sim :: sims => run C cfg gcfg scfg qcfg (step C cfg gcfg scfg qcfg s sim).2.1 sims

/-- The 11 recorder channels, in creation order. -/
def channelList (s : WooferRobot) : List (List (List ℚ)) :=
  [s.torque_history, s.force_history, s.ref_wrench_history, s.contacts_history,
   s.active_feet_history, s.swing_torque_history, s.swing_force_history,
   s.swing_trajectory_log, s.foot_positions_log, s.phase_history, s.step_phase_history]

/-- Recorder safety invariant: every channel has the capacity of
`torque_history` (the one the growth guard inspects), the write index
has not outrun the capacity, and capacity is positive. -/
def RecInv (s : WooferRobot) : Prop :=
  (∀ ch ∈ channelList s, ch.length = s.torque_history.length) ∧
    s.i ≤ s.torque_history.length ∧ 1 ≤ s.torque_history.length

/-- The object state after all mutations of a successful tick body,
just before `log_data` and the `t`/`i` advance, in terms of the
collaborator outputs of the tick. -/
def midState (s : WooferRobot) (st : RobotState) (con : Vec 4) (g : GaitOut)
    (sw : SwingOut) (feet : Vec 12) (qp : QPOut) : WooferRobot :=
  { s with
    state := some st
    contacts := some con
    step_locations := g.step_locations
    p_step_locations := g.p_step_locations
    active_feet := some g.active_feet
    phase := g.phase
    step_phase := g.step_phase
    swing_torques := sw.swing_torques
    swing_forces := some sw.swing_forces
    swing_trajectory := sw.swing_trajectory
    foot_positions := sw.foot_positions
    feet_locations := some feet
    foot_forces := qp.foot_forces
    ref_wrench := some qp.ref_wrench
    torques := some (blend (expandMask g.active_feet) qp.qp_torques sw.swing_torques)
    max_forces := RunningMaxUpdate s.max_forces qp.foot_forces
    max_torques := RunningMaxUpdate s.max_torques
      (blend (expandMask g.active_feet) qp.qp_torques sw.swing_torques) }

/-- The object state at the end of a successful tick. -/
def postState (s : WooferRobot) (st : RobotState) (con : Vec 4) (g : GaitOut)
    (sw : SwingOut) (feet : Vec 12) (qp : QPOut) : WooferRobot :=
  let m := write_logs (grow_if_needed (midState s st con g sw feet qp))
  { m with t := m.t + m.dt, i := m.i + 1 }

/-- The event trace of a successful tick: `prevFF` is the warm-start
argument handed to the QP solver, `ffNew` the foot forces it returned,
`τ` the blended torques. -/
def successTrace (prevFF ffNew τ : Vec 12) : List Event :=
  [Event.callStateEstimator, Event.callContactEstimator, Event.callGaitPlanner,
   Event.callSwingController, Event.callKinematics, Event.callQPController prevFF,
   Event.expandMaskEv, Event.blendEv,
   Event.updateMaxForces ffNew, Event.updateMaxTorques τ,
   Event.updateMaxForces ffNew, Event.updateMaxTorques τ,
   Event.logDataEv, Event.advanceTime]

/-! ### Concrete instances used by witnesses and counterexamples -/

/-- A concrete configuration (MASS = 8). -/
def cfgEx : WooferConfig := ⟨8⟩

/-- A concrete state estimate. -/
def stEx : RobotState where
  p := fun _ => 0
  p_d := fun _ => 0
  q := fun _ => 0
  w := fun _ => 0
  j := fun _ => 0

/-- A concrete gait-planner output with mask `[1, 0, 1, 0]`. -/
def gaitEx : GaitOut where
  step_locations := fun _ => 0
  p_step_locations := fun _ => 0
  p_ref := fun _ => 0
  rpy_ref := fun _ => 0
  active_feet := ![1, 0, 1, 0]
  phase := 0
  step_phase := 0

/-- A concrete swing-controller output. -/
def swingEx : SwingOut where
  swing_torques := fun k => (k.val : ℚ)
  swing_forces := fun _ => 5
  swing_trajectory := fun _ => 0
  foot_positions := fun _ => 0

/-- A concrete QP-controller output. -/
def qpEx : QPOut where
  qp_torques := fun _ => 7
  foot_forces := fun _ => 2
  ref_wrench := fun _ => 3

/-- Collaborators whose calls all succeed, returning the values above. -/
def Ctriv : Collaborators Unit Unit Unit Unit where
  state_estimator := fun _ => Except.ok stEx
  contact_estimator := fun _ => Except.ok (fun _ => 1)
  gait_planner := fun _ _ _ _ _ => Except.ok gaitEx
  swing_controller := fun _ _ _ _ _ _ _ => Except.ok swingEx
  kinematics := fun _ _ => fun _ => 0
  qp_controller := fun _ _ _ _ _ _ _ _ => Except.ok qpEx

/-- Collaborators whose QP solve fails with `InfeasibleSolveError`. -/
def Cfail : Collaborators Unit Unit Unit Unit :=
  { Ctriv with qp_controller := fun _ _ _ _ _ _ _ _ => Except.error Err.infeasibleSolveError }

/-! ### C5: leg-mask expansion -/

/-- C5: expanding the 4-wide active-feet mask repeats each leg's value
for the 3 joints of that leg, `mask12[3j+c] = mask4[j]`, and expanding
`[1,0,1,0]` yields `[1,1,1,0,0,0,1,1,1,0,0,0]`. -/
theorem c5_mask_expansion :
    (∀ (m : Vec 4) (j : Fin 4) (c : Fin 3),
      expandMask m ⟨3 * j.val + c.val, by have hj := j.isLt; have hc := c.isLt; omega⟩ = m j) ∧
    (∀ k, expandMask ![1, 0, 1, 0] k = ![1, 1, 1, 0, 0, 0, 1, 1, 1, 0, 0, 0] k) := by
  constructor
  · intro m j c
    fin_cases j <;> fin_cases c <;> rfl
  · intro k
    fin_cases k <;> rfl

/-! ### C1: torque blending -/

/-- C1: on a successful tick the returned joint torques are the
per-joint convex combination of the stance (QP) and swing torques
under the expanded active-feet mask; an all-ones mask returns the
stance torques and an all-zeros mask the swing torques. -/
theorem c1_blend_law {Sim GaitCfg SwingCfg QPCfg : Type}
    (C : Collaborators Sim GaitCfg SwingCfg QPCfg)
    (cfg : WooferConfig) (gcfg : GaitCfg) (scfg : SwingCfg) (qcfg : QPCfg)
    (s : WooferRobot) (sim : Sim)
    (st : RobotState) (con : Vec 4) (g : GaitOut) (sw : SwingOut) (qp : QPOut) (τ : Vec 12)
    (h1 : C.state_estimator sim = Except.ok st)
    (h2 : C.contact_estimator sim = Except.ok con)
    (h3 : C.gait_planner st con s.t cfg gcfg = Except.ok g)
    (h4 : C.swing_controller st g.step_phase g.step_locations g.p_step_locations
      g.active_feet cfg scfg = Except.ok sw)
    (h5 : C.qp_controller (st.p, st.p_d, st.q, st.w, st.j) (C.kinematics st.q st.j)
      g.active_feet g.p_ref g.rpy_ref s.foot_forces cfg qcfg = Except.ok qp)
    (hτ : (step C cfg gcfg scfg qcfg s sim).2.2 = Except.ok τ) :
    (∀ k, τ k = expandMask g.active_feet k * qp.qp_torques k +
      (1 - expandMask g.active_feet k) * sw.swing_torques k) ∧
    ((∀ j, g.active_feet j = 1) → ∀ k, τ k = qp.qp_torques k) ∧
    ((∀ j, g.active_feet j = 0) → ∀ k, τ k = sw.swing_torques k) := by
  have hstep : (step C cfg gcfg scfg qcfg s sim).2.2 =
      Except.ok (blend (expandMask g.active_feet) qp.qp_torques sw.swing_torques) := by
    simp only [step, h1, h2, h3, h4, h5]
  rw [hstep] at hτ
  injection hτ with hτ
  subst hτ
  refine ⟨fun k => rfl, fun hm k => ?_, fun hm k => ?_⟩
  · simp [blend, expandMask, hm]
  · simp [blend, expandMask, hm]

/-- Witness for C1 at concrete inputs (joint 3 belongs to swing leg 1
of the `[1,0,1,0]` mask, so the blend picks the swing torque there). -/
theorem c1_blend_law_witness :
    blend (expandMask gaitEx.active_feet) qpEx.qp_torques swingEx.swing_torques 3 =
      expandMask gaitEx.active_feet 3 * qpEx.qp_torques 3 +
        (1 - expandMask gaitEx.active_feet 3) * swingEx.swing_torques 3 :=
  (c1_blend_law Ctriv cfgEx () () () (WooferRobot.init cfgEx 1) () stEx (fun _ => 1)
    gaitEx swingEx qpEx _ rfl rfl rfl rfl rfl rfl).1 3

/-! ### Helper lemmas about the recorder growth step -/

@[simp] lemma grow_if_needed_t (s : WooferRobot) : (grow_if_needed s).t = s.t := by
  simp only [grow_if_needed]; split <;> rfl

@[simp] lemma grow_if_needed_dt (s : WooferRobot) : (grow_if_needed s).dt = s.dt := by
  simp only [grow_if_needed]; split <;> rfl

@[simp] lemma grow_if_needed_i (s : WooferRobot) : (grow_if_needed s).i = s.i := by
  simp only [grow_if_needed]; split <;> rfl

@[simp] lemma grow_if_needed_foot_forces (s : WooferRobot) :
    (grow_if_needed s).foot_forces = s.foot_forces := by
  simp only [grow_if_needed]; split <;> rfl

@[simp] lemma grow_if_needed_torques (s : WooferRobot) :
    (grow_if_needed s).torques = s.torques := by
  simp only [grow_if_needed]; split <;> rfl

/-- The full shape of a successful tick. -/
lemma step_ok_eq {Sim GaitCfg SwingCfg QPCfg : Type}
    (C : Collaborators Sim GaitCfg SwingCfg QPCfg)
    (cfg : WooferConfig) (gcfg : GaitCfg) (scfg : SwingCfg) (qcfg : QPCfg)
    (s : WooferRobot) (sim : Sim)
    (st : RobotState) (con : Vec 4) (g : GaitOut) (sw : SwingOut) (qp : QPOut)
    (h1 : C.state_estimator sim = Except.ok st)
    (h2 : C.contact_estimator sim = Except.ok con)
    (h3 : C.gait_planner st con s.t cfg gcfg = Except.ok g)
    (h4 : C.swing_controller st g.step_phase g.step_locations g.p_step_locations
      g.active_feet cfg scfg = Except.ok sw)
    (h5 : C.qp_controller (st.p, st.p_d, st.q, st.w, st.j) (C.kinematics st.q st.j)
      g.active_feet g.p_ref g.rpy_ref s.foot_forces cfg qcfg = Except.ok qp) :
    step C cfg gcfg scfg qcfg s sim =
      (successTrace s.foot_forces qp.foot_forces
        (blend (expandMask g.active_feet) qp.qp_torques sw.swing_torques),
       postState s st con g sw (C.kinematics st.q st.j) qp,
       Except.ok (blend (expandMask g.active_feet) qp.qp_torques sw.swing_torques)) := by
  simp only [step, h1, h2, h3, h4, h5, log_data, successTrace, postState, midState,
    grow_if_needed_foot_forces, grow_if_needed_torques]
  simp

@[simp] lemma postState_t (s : WooferRobot) (st : RobotState) (con : Vec 4) (g : GaitOut)
    (sw : SwingOut) (feet : Vec 12) (qp : QPOut) :
    (postState s st con g sw feet qp).t = s.t + s.dt := by
  simp [postState, write_logs, midState]

@[simp] lemma postState_i (s : WooferRobot) (st : RobotState) (con : Vec 4) (g : GaitOut)
    (sw : SwingOut) (feet : Vec 12) (qp : QPOut) :
    (postState s st con g sw feet qp).i = s.i + 1 := by
  simp [postState, write_logs, midState]

@[simp] lemma postState_dt (s : WooferRobot) (st : RobotState) (con : Vec 4) (g : GaitOut)
    (sw : SwingOut) (feet : Vec 12) (qp : QPOut) :
    (postState s st con g sw feet qp).dt = s.dt := by
  simp [postState, write_logs, midState]

@[simp] lemma postState_foot_forces (s : WooferRobot) (st : RobotState) (con : Vec 4)
    (g : GaitOut) (sw : SwingOut) (feet : Vec 12) (qp : QPOut) :
    (postState s st con g sw feet qp).foot_forces = qp.foot_forces := by
  simp [postState, write_logs, midState]

/-- Any tick either fails leaving `t`, `i` and all recorder channels
untouched, or all five fallible collaborator calls succeeded. -/
lemma step_outcome {Sim GaitCfg SwingCfg QPCfg : Type}
    (C : Collaborators Sim GaitCfg SwingCfg QPCfg)
    (cfg : WooferConfig) (gcfg : GaitCfg) (scfg : SwingCfg) (qcfg : QPCfg)
    (s : WooferRobot) (sim : Sim) :
    ((step C cfg gcfg scfg qcfg s sim).2.1.t = s.t ∧
     (step C cfg gcfg scfg qcfg s sim).2.1.i = s.i ∧
     (step C cfg gcfg scfg qcfg s sim).2.1.dt = s.dt ∧
     channelList (step C cfg gcfg scfg qcfg s sim).2.1 = channelList s ∧
     ∃ e, (step C cfg gcfg scfg qcfg s sim).2.2 = Except.error e) ∨
    (∃ st con g sw qp,
      C.state_estimator sim = Except.ok st ∧
      C.contact_estimator sim = Except.ok con ∧
      C.gait_planner st con s.t cfg gcfg = Except.ok g ∧
      C.swing_controller st g.step_phase g.step_locations g.p_step_locations
        g.active_feet cfg scfg = Except.ok sw ∧
      C.qp_controller (st.p, st.p_d, st.q, st.w, st.j) (C.kinematics st.q st.j)
        g.active_feet g.p_ref g.rpy_ref s.foot_forces cfg qcfg = Except.ok qp) := by
  cases h1 : C.state_estimator sim with
  | error e1 => exact Or.inl (by simp [step, h1, channelList])
  | ok st =>
    cases h2 : C.contact_estimator sim with
    | error e2 => exact Or.inl (by simp [step, h1, h2, channelList])
    | ok con =>
      cases h3 : C.gait_planner st con s.t cfg gcfg with
      | error e3 => exact Or.inl (by simp [step, h1, h2, h3, channelList])
      | ok g =>
        cases h4 : C.swing_controller st g.step_phase g.step_locations g.p_step_locations
            g.active_feet cfg scfg with
        | error e4 => exact Or.inl (by simp [step, h1, h2, h3, h4, channelList])
        | ok sw =>
          cases h5 : C.qp_controller (st.p, st.p_d, st.q, st.w, st.j)
              (C.kinematics st.q st.j) g.active_feet g.p_ref g.rpy_ref
              s.foot_forces cfg qcfg with
          | error e5 => exact Or.inl (by simp [step, h1, h2, h3, h4, h5, channelList])
          | ok qp =>
            refine Or.inr ⟨st, con, g, sw, qp, ?_, ?_, ?_, ?_, ?_⟩ <;>
              first
              | exact h1
              | exact h2
              | exact h3
              | exact h4
              | exact h5
              | rfl

/-- C2: a tick on which a collaborator call fails propagates the error
and leaves the tick counter `i`, the simulated time `t`, and every
recorder channel buffer exactly as before the tick. -/
theorem c2_failed_tick_preserves_state {Sim GaitCfg SwingCfg QPCfg : Type}
    (C : Collaborators Sim GaitCfg SwingCfg QPCfg)
    (cfg : WooferConfig) (gcfg : GaitCfg) (scfg : SwingCfg) (qcfg : QPCfg)
    (s : WooferRobot) (sim : Sim) (e : Err)
    (h : (step C cfg gcfg scfg qcfg s sim).2.2 = Except.error e) :
    (step C cfg gcfg scfg qcfg s sim).2.1.i = s.i ∧
    (step C cfg gcfg scfg qcfg s sim).2.1.t = s.t ∧
    channelList (step C cfg gcfg scfg qcfg s sim).2.1 = channelList s := by
  rcases step_outcome C cfg gcfg scfg qcfg s sim with
    ⟨ht, hi, _, hch, _⟩ | ⟨st, con, g, sw, qp, h1, h2, h3, h4, h5⟩
  · exact ⟨hi, ht, hch⟩
  · rw [step_ok_eq C cfg gcfg scfg qcfg s sim st con g sw qp h1 h2 h3 h4 h5] at h
    simp at h

/-- Witness for C2: the QP solver raising `InfeasibleSolveError` on the
first tick leaves `i`, `t` and the recorder of the fresh robot intact. -/
theorem c2_failed_tick_preserves_state_witness :
    (step Cfail cfgEx () () () (WooferRobot.init cfgEx 1) ()).2.1.i =
      (WooferRobot.init cfgEx 1).i ∧
    (step Cfail cfgEx () () () (WooferRobot.init cfgEx 1) ()).2.1.t =
      (WooferRobot.init cfgEx 1).t ∧
    channelList (step Cfail cfgEx () () () (WooferRobot.init cfgEx 1) ()).2.1 =
      channelList (WooferRobot.init cfgEx 1) :=
  c2_failed_tick_preserves_state Cfail cfgEx () () () (WooferRobot.init cfgEx 1) ()
    Err.infeasibleSolveError rfl

/-- C8: a successful tick performs the collaborator calls and the
subsequent sections in the fixed source order — state estimation,
contact estimation, gait planning, swing-leg control, forward
kinematics, stance (QP) force control, mask expansion, blending, the
running-max updates, the recorder append, the `t`/`i` advance — and
returns the blended 12-joint torque vector. -/
theorem c8_fixed_call_order {Sim GaitCfg SwingCfg QPCfg : Type}
    (C : Collaborators Sim GaitCfg SwingCfg QPCfg)
    (cfg : WooferConfig) (gcfg : GaitCfg) (scfg : SwingCfg) (qcfg : QPCfg)
    (s : WooferRobot) (sim : Sim)
    (st : RobotState) (con : Vec 4) (g : GaitOut) (sw : SwingOut) (qp : QPOut)
    (h1 : C.state_estimator sim = Except.ok st)
    (h2 : C.contact_estimator sim = Except.ok con)
    (h3 : C.gait_planner st con s.t cfg gcfg = Except.ok g)
    (h4 : C.swing_controller st g.step_phase g.step_locations g.p_step_locations
      g.active_feet cfg scfg = Except.ok sw)
    (h5 : C.qp_controller (st.p, st.p_d, st.q, st.w, st.j) (C.kinematics st.q st.j)
      g.active_feet g.p_ref g.rpy_ref s.foot_forces cfg qcfg = Except.ok qp) :
    step C cfg gcfg scfg qcfg s sim =
      (successTrace s.foot_forces qp.foot_forces
        (blend (expandMask g.active_feet) qp.qp_torques sw.swing_torques),
       postState s st con g sw (C.kinematics st.q st.j) qp,
       Except.ok (blend (expandMask g.active_feet) qp.qp_torques sw.swing_torques)) :=
  step_ok_eq C cfg gcfg scfg qcfg s sim st con g sw qp h1 h2 h3 h4 h5

/-- Witness for C8 at the concrete collaborators. -/
theorem c8_fixed_call_order_witness :
    step Ctriv cfgEx () () () (WooferRobot.init cfgEx 1) () =
      (successTrace (WooferRobot.init cfgEx 1).foot_forces qpEx.foot_forces
        (blend (expandMask gaitEx.active_feet) qpEx.qp_torques swingEx.swing_torques),
       postState (WooferRobot.init cfgEx 1) stEx (fun _ => 1) gaitEx swingEx
         (Ctriv.kinematics stEx.q stEx.j) qpEx,
       Except.ok (blend (expandMask gaitEx.active_feet) qpEx.qp_torques
         swingEx.swing_torques)) :=
  c8_fixed_call_order Ctriv cfgEx () () () (WooferRobot.init cfgEx 1) () stEx (fun _ => 1)
    gaitEx swingEx qpEx rfl rfl rfl rfl rfl

/-- C3 counterexample: on a concrete successful tick each running-max
tracker receives two `Update` calls, not one — `step` updates both
trackers (source lines 143-144) and `log_data` updates both again
(source lines 165-166). -/
theorem c3_counterexample_double_update :
    (step Ctriv cfgEx () () () (WooferRobot.init cfgEx 1) ()).2.2 =
      Except.ok (blend (expandMask gaitEx.active_feet) qpEx.qp_torques
        swingEx.swing_torques) ∧
    ((step Ctriv cfgEx () () () (WooferRobot.init cfgEx 1) ()).1.filter
      isMaxForcesUpdate).length = 2 ∧
    ((step Ctriv cfgEx () () () (WooferRobot.init cfgEx 1) ()).1.filter
      isMaxTorquesUpdate).length = 2 ∧
    (2 : Nat) ≠ 1 :=
  ⟨rfl, rfl, rfl, by norm_num⟩

/-- C3 as amended: on every successful tick each running-max tracker is
updated exactly twice, both times with that tick's values (the tick's
QP foot forces for the force tracker, the tick's blended torques for
the torque tracker). -/
theorem c3_two_updates_per_tick {Sim GaitCfg SwingCfg QPCfg : Type}
    (C : Collaborators Sim GaitCfg SwingCfg QPCfg)
    (cfg : WooferConfig) (gcfg : GaitCfg) (scfg : SwingCfg) (qcfg : QPCfg)
    (s : WooferRobot) (sim : Sim)
    (st : RobotState) (con : Vec 4) (g : GaitOut) (sw : SwingOut) (qp : QPOut)
    (h1 : C.state_estimator sim = Except.ok st)
    (h2 : C.contact_estimator sim = Except.ok con)
    (h3 : C.gait_planner st con s.t cfg gcfg = Except.ok g)
    (h4 : C.swing_controller st g.step_phase g.step_locations g.p_step_locations
      g.active_feet cfg scfg = Except.ok sw)
    (h5 : C.qp_controller (st.p, st.p_d, st.q, st.w, st.j) (C.kinematics st.q st.j)
      g.active_feet g.p_ref g.rpy_ref s.foot_forces cfg qcfg = Except.ok qp) :
    (step C cfg gcfg scfg qcfg s sim).1.filter isMaxForcesUpdate =
      [Event.updateMaxForces qp.foot_forces, Event.updateMaxForces qp.foot_forces] ∧
    (step C cfg gcfg scfg qcfg s sim).1.filter isMaxTorquesUpdate =
      [Event.updateMaxTorques
        (blend (expandMask g.active_feet) qp.qp_torques sw.swing_torques),
       Event.updateMaxTorques
        (blend (expandMask g.active_feet) qp.qp_torques sw.swing_torques)] := by
  rw [step_ok_eq C cfg gcfg scfg qcfg s sim st con g sw qp h1 h2 h3 h4 h5]
  exact ⟨rfl, rfl⟩

/-- Witness for the amended C3 at the concrete collaborators. -/
theorem c3_two_updates_per_tick_witness :
    (step Ctriv cfgEx () () () (WooferRobot.init cfgEx 1) ()).1.filter
      isMaxForcesUpdate =
      [Event.updateMaxForces qpEx.foot_forces, Event.updateMaxForces qpEx.foot_forces] ∧
    (step Ctriv cfgEx () () () (WooferRobot.init cfgEx 1) ()).1.filter
      isMaxTorquesUpdate =
      [Event.updateMaxTorques
        (blend (expandMask gaitEx.active_feet) qpEx.qp_torques swingEx.swing_torques),
       Event.updateMaxTorques
        (blend (expandMask gaitEx.active_feet) qpEx.qp_torques swingEx.swing_torques)] :=
  c3_two_updates_per_tick Ctriv cfgEx () () () (WooferRobot.init cfgEx 1) () stEx
    (fun _ => 1) gaitEx swingEx qpEx rfl rfl rfl rfl rfl

/-- Iterating `step` preserves `t = i * dt` (failed ticks advance
neither; successful ticks advance both in lockstep). -/
lemma run_clock {Sim GaitCfg SwingCfg QPCfg : Type}
    (C : Collaborators Sim GaitCfg SwingCfg QPCfg)
    (cfg : WooferConfig) (gcfg : GaitCfg) (scfg : SwingCfg) (qcfg : QPCfg) (dtv : ℚ) :
    ∀ (sims : List Sim) (s : WooferRobot), s.t = (s.i : ℚ) * dtv → s.dt = dtv →
      (run C cfg gcfg scfg qcfg s sims).t =
        ((run C cfg gcfg scfg qcfg s sims).i : ℚ) * dtv ∧
      (run C cfg gcfg scfg qcfg s sims).dt = dtv := by
  intro sims
  induction sims with
  | nil => intro s ht hdt; exact ⟨ht, hdt⟩
  | cons sim sims ih =>
    intro s ht hdt
    rw [run]
    rcases step_outcome C cfg gcfg scfg qcfg s sim with
      ⟨ht', hi', hdt', _, _⟩ | ⟨st, con, g, sw, qp, h1, h2, h3, h4, h5⟩
    · exact ih _ (by rw [ht', hi', ht]) (by rw [hdt', hdt])
    · refine ih _ ?_ ?_
      · rw [step_ok_eq C cfg gcfg scfg qcfg s sim st con g sw qp h1 h2 h3 h4 h5]
        simp only [postState_t, postState_i]
        rw [ht, hdt]
        push_cast
        ring
      · rw [step_ok_eq C cfg gcfg scfg qcfg s sim st con g sw qp h1 h2 h3 h4 h5]
        simp only [postState_dt]
        exact hdt

/-- C6: construction sets `t = 0`, `i = 0`; a successful tick advances
`t` by `dt` and `i` by one in lockstep; hence after any run of ticks
from a fresh robot, `t = i * dt`. -/
theorem c6_time_counter_lockstep {Sim GaitCfg SwingCfg QPCfg : Type}
    (C : Collaborators Sim GaitCfg SwingCfg QPCfg)
    (cfg : WooferConfig) (gcfg : GaitCfg) (scfg : SwingCfg) (qcfg : QPCfg) (dtv : ℚ) :
    (WooferRobot.init cfg dtv).t = 0 ∧ (WooferRobot.init cfg dtv).i = 0 ∧
    (∀ (s : WooferRobot) (sim : Sim) (τ : Vec 12),
      (step C cfg gcfg scfg qcfg s sim).2.2 = Except.ok τ →
      (step C cfg gcfg scfg qcfg s sim).2.1.t = s.t + s.dt ∧
      (step C cfg gcfg scfg qcfg s sim).2.1.i = s.i + 1) ∧
    (∀ sims : List Sim,
      (run C cfg gcfg scfg qcfg (WooferRobot.init cfg dtv) sims).t =
        ((run C cfg gcfg scfg qcfg (WooferRobot.init cfg dtv) sims).i : ℚ) * dtv) := by
  refine ⟨rfl, rfl, ?_, ?_⟩
  · intro s sim τ hok
    rcases step_outcome C cfg gcfg scfg qcfg s sim with
      ⟨_, _, _, _, e, he⟩ | ⟨st, con, g, sw, qp, h1, h2, h3, h4, h5⟩
    · rw [he] at hok; exact absurd hok (by simp)
    · rw [step_ok_eq C cfg gcfg scfg qcfg s sim st con g sw qp h1 h2 h3 h4 h5]
      simp
  · intro sims
    exact (run_clock C cfg gcfg scfg qcfg dtv sims (WooferRobot.init cfg dtv)
      (by norm_num [WooferRobot.init]) rfl).1

/-- Witness for C6: one successful tick from the fresh robot moves
`t` from `0` to `0 + 1` and `i` from `0` to `0 + 1`. -/
theorem c6_time_counter_lockstep_witness :
    (step Ctriv cfgEx () () () (WooferRobot.init cfgEx 1) ()).2.1.t =
      (WooferRobot.init cfgEx 1).t + (WooferRobot.init cfgEx 1).dt ∧
    (step Ctriv cfgEx () () () (WooferRobot.init cfgEx 1) ()).2.1.i =
      (WooferRobot.init cfgEx 1).i + 1 :=
  (c6_time_counter_lockstep Ctriv cfgEx () () () 1).2.2.1 (WooferRobot.init cfgEx 1) ()
    (blend (expandMask gaitEx.active_feet) qpEx.qp_torques swingEx.swing_torques) rfl

/-- Whenever a tick reaches the QP controller, the `previousFootForces`
argument it passes is the object's `foot_forces` attribute from before
the tick. -/
lemma qp_event_arg {Sim GaitCfg SwingCfg QPCfg : Type}
    (C : Collaborators Sim GaitCfg SwingCfg QPCfg)
    (cfg : WooferConfig) (gcfg : GaitCfg) (scfg : SwingCfg) (qcfg : QPCfg)
    (s : WooferRobot) (sim : Sim) (v : Vec 12)
    (hv : Event.callQPController v ∈ (step C cfg gcfg scfg qcfg s sim).1) :
    v = s.foot_forces := by
  cases h1 : C.state_estimator sim with
  | error e1 => simp [step, h1] at hv
  | ok st =>
    cases h2 : C.contact_estimator sim with
    | error e2 => simp [step, h1, h2] at hv
    | ok con =>
      cases h3 : C.gait_planner st con s.t cfg gcfg with
      | error e3 => simp [step, h1, h2, h3] at hv
      | ok g =>
        cases h4 : C.swing_controller st g.step_phase g.step_locations g.p_step_locations
            g.active_feet cfg scfg with
        | error e4 => simp [step, h1, h2, h3, h4] at hv
        | ok sw =>
          cases h5 : C.qp_controller (st.p, st.p_d, st.q, st.w, st.j)
              (C.kinematics st.q st.j) g.active_feet g.p_ref g.rpy_ref
              s.foot_forces cfg qcfg with
          | error e5 => simpa [step, h1, h2, h3, h4, h5] using hv
          | ok qp =>
            rw [step_ok_eq C cfg gcfg scfg qcfg s sim st con g sw qp h1 h2 h3 h4 h5] at hv
            simpa [successTrace] using hv

/-- C7: the warm-start foot-force argument handed to the stance QP
controller on the very first tick is the mass-derived static default
`[0, 0, MASS*9.81/4]` repeated per leg, and on a tick following a
successful tick it is exactly the foot-force output that the QP
controller returned on that previous tick. -/
theorem c7_warm_start_chain {Sim GaitCfg SwingCfg QPCfg : Type}
    (C : Collaborators Sim GaitCfg SwingCfg QPCfg)
    (cfg : WooferConfig) (gcfg : GaitCfg) (scfg : SwingCfg) (qcfg : QPCfg) (dtv : ℚ) :
    (∀ (sim : Sim) (v : Vec 12),
      Event.callQPController v ∈
        (step C cfg gcfg scfg qcfg (WooferRobot.init cfg dtv) sim).1 →
      ∀ (j : Fin 4) (c : Fin 3),
        v ⟨3 * j.val + c.val, by have := j.isLt; have := c.isLt; omega⟩ =
          ![(0 : ℚ), 0, cfg.MASS * (981 / 100) / 4] c) ∧
    (∀ (s : WooferRobot) (sim sim2 : Sim) (st : RobotState) (con : Vec 4) (g : GaitOut)
        (sw : SwingOut) (qp : QPOut),
      C.state_estimator sim = Except.ok st →
      C.contact_estimator sim = Except.ok con →
      C.gait_planner st con s.t cfg gcfg = Except.ok g →
      C.swing_controller st g.step_phase g.step_locations g.p_step_locations
        g.active_feet cfg scfg = Except.ok sw →
      C.qp_controller (st.p, st.p_d, st.q, st.w, st.j) (C.kinematics st.q st.j)
        g.active_feet g.p_ref g.rpy_ref s.foot_forces cfg qcfg = Except.ok qp →
      ∀ v : Vec 12, Event.callQPController v ∈
        (step C cfg gcfg scfg qcfg (step C cfg gcfg scfg qcfg s sim).2.1 sim2).1 →
      v = qp.foot_forces) := by
  constructor
  · intro sim v hv j c
    have hvf := qp_event_arg C cfg gcfg scfg qcfg _ sim v hv
    rw [hvf]
    show initFootForces cfg _ = _
    fin_cases j <;> fin_cases c <;> rfl
  · intro s sim sim2 st con g sw qp h1 h2 h3 h4 h5 v hv
    have hvf := qp_event_arg C cfg gcfg scfg qcfg _ sim2 v hv
    rw [hvf, step_ok_eq C cfg gcfg scfg qcfg s sim st con g sw qp h1 h2 h3 h4 h5]
    simp

/-- Witness for C7: on the first tick of the concrete robot (MASS = 8)
the QP warm-start argument at leg 1, joint 2 is `8 * 9.81 / 4`. -/
theorem c7_warm_start_chain_witness :
    initFootForces cfgEx ⟨5, by norm_num⟩ =
      ![(0 : ℚ), 0, cfgEx.MASS * (981 / 100) / 4] 2 :=
  (c7_warm_start_chain Ctriv cfgEx () () () 1).1 () (initFootForces cfgEx)
    (by rw [step_ok_eq Ctriv cfgEx () () () (WooferRobot.init cfgEx 1) () stEx
          (fun _ => 1) gaitEx swingEx qpEx rfl rfl rfl rfl rfl]
        simp [successTrace, WooferRobot.init])
    1 2

@[simp] lemma growChannel_length (buf : List (List ℚ)) :
    (growChannel buf).length = buf.length + 1000 := by
  unfold growChannel
  rw [List.length_append, List.length_replicate]

lemma grow_if_needed_eq (s : WooferRobot) :
    grow_if_needed s = if s.i > s.torque_history.length - 1 then growAll s else s := rfl

lemma channelList_growAll (s : WooferRobot) :
    channelList (growAll s) = (channelList s).map growChannel := rfl

lemma growAll_torque_history (s : WooferRobot) :
    (growAll s).torque_history = growChannel s.torque_history := rfl

/-- The growth guard restores the invariant and leaves the write index
strictly inside the (possibly grown) capacity. -/
lemma grow_if_needed_spec (s : WooferRobot) (hInv : RecInv s) :
    RecInv (grow_if_needed s) ∧ s.i < (grow_if_needed s).torque_history.length := by
  obtain ⟨hch, hi, hpos⟩ := hInv
  rw [grow_if_needed_eq]
  by_cases h : s.i > s.torque_history.length - 1
  · rw [if_pos h]
    refine ⟨⟨?_, ?_, ?_⟩, ?_⟩
    · intro ch hmem
      rw [channelList_growAll] at hmem
      obtain ⟨ch0, hch0, rfl⟩ := List.mem_map.mp hmem
      have hl := hch ch0 hch0
      show (growChannel ch0).length = (growAll s).torque_history.length
      rw [growAll_torque_history, growChannel_length, growChannel_length, hl]
    · show s.i ≤ (growAll s).torque_history.length
      rw [growAll_torque_history, growChannel_length]
      omega
    · show 1 ≤ (growAll s).torque_history.length
      rw [growAll_torque_history, growChannel_length]
      omega
    · show s.i < (growAll s).torque_history.length
      rw [growAll_torque_history, growChannel_length]
      omega
  · rw [if_neg h]
    exact ⟨⟨hch, hi, hpos⟩, by omega⟩

/-- `log_data`'s write step preserves the invariant. -/
lemma recInv_postState (s : WooferRobot) (st : RobotState) (con : Vec 4) (g : GaitOut)
    (sw : SwingOut) (feet : Vec 12) (qp : QPOut) (hInv : RecInv s) :
    RecInv (postState s st con g sw feet qp) := by
  have hmid : RecInv (midState s st con g sw feet qp) := hInv
  obtain ⟨⟨hc, hile, hpos⟩, hlt⟩ := grow_if_needed_spec _ hmid
  have hmi : (midState s st con g sw feet qp).i = s.i := rfl
  refine ⟨?_, ?_, ?_⟩
  · intro ch hmem
    simp only [postState, channelList, write_logs, List.mem_cons, List.not_mem_nil,
      or_false] at hmem ⊢
    rcases hmem with rfl | rfl | rfl | rfl | rfl | rfl | rfl | rfl | rfl | rfl | rfl <;>
      simp only [List.length_set] <;>
      exact hc _ (by simp [channelList])
  · simp only [postState_i]
    show s.i + 1 ≤ (postState s st con g sw feet qp).torque_history.length
    simp only [postState, write_logs, List.length_set]
    have hlt2 : s.i < (grow_if_needed (midState s st con g sw feet qp)).torque_history.length :=
      hlt
    omega
  · show 1 ≤ (postState s st con g sw feet qp).torque_history.length
    simp only [postState, write_logs, List.length_set]
    exact hpos

/-- A tick (successful or failed) preserves the recorder invariant. -/
lemma recInv_step {Sim GaitCfg SwingCfg QPCfg : Type}
    (C : Collaborators Sim GaitCfg SwingCfg QPCfg)
    (cfg : WooferConfig) (gcfg : GaitCfg) (scfg : SwingCfg) (qcfg : QPCfg)
    (s : WooferRobot) (sim : Sim) (hInv : RecInv s) :
    RecInv (step C cfg gcfg scfg qcfg s sim).2.1 := by
  rcases step_outcome C cfg gcfg scfg qcfg s sim with
    ⟨_, hi, _, hch, _⟩ | ⟨st, con, g, sw, qp, h1, h2, h3, h4, h5⟩
  · obtain ⟨e1, e2, e3, e4, e5, e6, e7, e8, e9, e10, e11⟩ := by
      simpa [channelList] using hch
    refine ⟨?_, ?_, ?_⟩
    · intro ch hmem
      simp only [channelList, List.mem_cons, List.not_mem_nil, or_false] at hmem
      rcases hmem with rfl | rfl | rfl | rfl | rfl | rfl | rfl | rfl | rfl | rfl | rfl
      · rw [e1]
      · rw [e2, e1]; exact hInv.1 _ (by simp [channelList])
      · rw [e3, e1]; exact hInv.1 _ (by simp [channelList])
      · rw [e4, e1]; exact hInv.1 _ (by simp [channelList])
      · rw [e5, e1]; exact hInv.1 _ (by simp [channelList])
      · rw [e6, e1]; exact hInv.1 _ (by simp [channelList])
      · rw [e7, e1]; exact hInv.1 _ (by simp [channelList])
      · rw [e8, e1]; exact hInv.1 _ (by simp [channelList])
      · rw [e9, e1]; exact hInv.1 _ (by simp [channelList])
      · rw [e10, e1]; exact hInv.1 _ (by simp [channelList])
      · rw [e11, e1]; exact hInv.1 _ (by simp [channelList])
    · rw [hi, e1]; exact hInv.2.1
    · rw [e1]; exact hInv.2.2
  · rw [step_ok_eq C cfg gcfg scfg qcfg s sim st con g sw qp h1 h2 h3 h4 h5]
    exact recInv_postState s st con g sw (C.kinematics st.q st.j) qp hInv

/-- The recorder invariant holds along any run. -/
lemma recInv_run {Sim GaitCfg SwingCfg QPCfg : Type}
    (C : Collaborators Sim GaitCfg SwingCfg QPCfg)
    (cfg : WooferConfig) (gcfg : GaitCfg) (scfg : SwingCfg) (qcfg : QPCfg) :
    ∀ (sims : List Sim) (s : WooferRobot), RecInv s →
      RecInv (run C cfg gcfg scfg qcfg s sims) := by
  intro sims
  induction sims with
  | nil => intro s h; exact h
  | cons sim sims ih =>
    intro s h
    rw [run]
    exact ih _ (recInv_step C cfg gcfg scfg qcfg s sim h)

/-- A fresh robot satisfies the recorder invariant. -/
lemma recInv_init (cfg : WooferConfig) (dtv : ℚ) : RecInv (WooferRobot.init cfg dtv) := by
  refine ⟨?_, ?_, ?_⟩
  · intro ch hmem
    simp only [channelList, List.mem_cons, List.not_mem_nil, or_false] at hmem
    rcases hmem with rfl | rfl | rfl | rfl | rfl | rfl | rfl | rfl | rfl | rfl | rfl <;>
      simp [WooferRobot.init, initChannel]
  · show (0 : Nat) ≤ (initChannel 12).length
    exact Nat.zero_le _
  · show 1 ≤ (initChannel 12).length
    simp [initChannel]

/-- C9: every recorder channel is created with 10 columns; the
invariant (shared capacity across all 11 channels, write index within
capacity) holds in every reachable state; and after the growth guard
the write index is strictly below every channel's capacity, so the
column writes of `log_data` are in bounds. -/
theorem c9_log_writes_in_bounds {Sim GaitCfg SwingCfg QPCfg : Type}
    (C : Collaborators Sim GaitCfg SwingCfg QPCfg)
    (cfg : WooferConfig) (gcfg : GaitCfg) (scfg : SwingCfg) (qcfg : QPCfg) (dtv : ℚ) :
    (∀ ch ∈ channelList (WooferRobot.init cfg dtv), ch.length = 10) ∧
    (∀ sims : List Sim, RecInv (run C cfg gcfg scfg qcfg (WooferRobot.init cfg dtv) sims)) ∧
    (∀ s : WooferRobot, RecInv s →
      ∀ ch ∈ channelList (grow_if_needed s), s.i < ch.length) := by
  refine ⟨?_, ?_, ?_⟩
  · intro ch hmem
    simp only [channelList, List.mem_cons, List.not_mem_nil, or_false] at hmem
    rcases hmem with rfl | rfl | rfl | rfl | rfl | rfl | rfl | rfl | rfl | rfl | rfl <;>
      simp [WooferRobot.init, initChannel]
  · intro sims
    exact recInv_run C cfg gcfg scfg qcfg sims _ (recInv_init cfg dtv)
  · intro s hs ch hmem
    obtain ⟨⟨hc, _, _⟩, hlt⟩ := grow_if_needed_spec s hs
    rw [hc ch hmem]
    exact hlt

/-- Witness for C9: on the fresh concrete robot the write index 0 is
strictly inside the (ungrown) 10-column torque channel. -/
theorem c9_log_writes_in_bounds_witness :
    (WooferRobot.init cfgEx 1).i <
      (grow_if_needed (WooferRobot.init cfgEx 1)).torque_history.length :=
  (c9_log_writes_in_bounds Ctriv cfgEx () () () 1).2.2 (WooferRobot.init cfgEx 1)
    (recInv_init cfgEx 1) _ (by simp [channelList])

lemma midState_i (s : WooferRobot) (st : RobotState) (con : Vec 4) (g : GaitOut)
    (sw : SwingOut) (feet : Vec 12) (qp : QPOut) :
    (midState s st con g sw feet qp).i = s.i := rfl

lemma midState_torques (s : WooferRobot) (st : RobotState) (con : Vec 4) (g : GaitOut)
    (sw : SwingOut) (feet : Vec 12) (qp : QPOut) :
    (midState s st con g sw feet qp).torques =
      some (blend (expandMask g.active_feet) qp.qp_torques sw.swing_torques) := rfl

lemma midState_foot_forces (s : WooferRobot) (st : RobotState) (con : Vec 4) (g : GaitOut)
    (sw : SwingOut) (feet : Vec 12) (qp : QPOut) :
    (midState s st con g sw feet qp).foot_forces = qp.foot_forces := rfl

/-- C10: on a successful tick with write index `i = s.i`, the torque
vector `step` returns is exactly the column it wrote at index `i` of
the `torque_history` channel, and the foot-force vector carried
forward as the next tick's warm start is exactly the column written at
index `i` of the `force_history` channel. -/
theorem c10_returned_equals_logged {Sim GaitCfg SwingCfg QPCfg : Type}
    (C : Collaborators Sim GaitCfg SwingCfg QPCfg)
    (cfg : WooferConfig) (gcfg : GaitCfg) (scfg : SwingCfg) (qcfg : QPCfg)
    (s : WooferRobot) (sim : Sim)
    (st : RobotState) (con : Vec 4) (g : GaitOut) (sw : SwingOut) (qp : QPOut)
    (h1 : C.state_estimator sim = Except.ok st)
    (h2 : C.contact_estimator sim = Except.ok con)
    (h3 : C.gait_planner st con s.t cfg gcfg = Except.ok g)
    (h4 : C.swing_controller st g.step_phase g.step_locations g.p_step_locations
      g.active_feet cfg scfg = Except.ok sw)
    (h5 : C.qp_controller (st.p, st.p_d, st.q, st.w, st.j) (C.kinematics st.q st.j)
      g.active_feet g.p_ref g.rpy_ref s.foot_forces cfg qcfg = Except.ok qp)
    (hInv : RecInv s) :
    (step C cfg gcfg scfg qcfg s sim).2.2 =
      Except.ok (blend (expandMask g.active_feet) qp.qp_torques sw.swing_torques) ∧
    (step C cfg gcfg scfg qcfg s sim).2.1.torque_history[s.i]? =
      some (vecToList (blend (expandMask g.active_feet) qp.qp_torques sw.swing_torques)) ∧
    (step C cfg gcfg scfg qcfg s sim).2.1.foot_forces = qp.foot_forces ∧
    (step C cfg gcfg scfg qcfg s sim).2.1.force_history[s.i]? =
      some (vecToList qp.foot_forces) := by
  have hmid : RecInv (midState s st con g sw (C.kinematics st.q st.j) qp) := hInv
  obtain ⟨⟨hc, _, _⟩, hlt⟩ := grow_if_needed_spec _ hmid
  have hlt2 :
      s.i < (grow_if_needed (midState s st con g sw (C.kinematics st.q st.j) qp)).torque_history.length :=
    hlt
  rw [step_ok_eq C cfg gcfg scfg qcfg s sim st con g sw qp h1 h2 h3 h4 h5]
  refine ⟨rfl, ?_, by simp, ?_⟩
  · show (postState s st con g sw (C.kinematics st.q st.j) qp).torque_history[s.i]? = _
    simp only [postState, write_logs]
    rw [grow_if_needed_i, midState_i, grow_if_needed_torques, midState_torques,
      Option.getD_some, List.getElem?_set_self hlt2]
  · show (postState s st con g sw (C.kinematics st.q st.j) qp).force_history[s.i]? = _
    simp only [postState, write_logs]
    have hlen :
        (grow_if_needed (midState s st con g sw (C.kinematics st.q st.j) qp)).force_history.length =
          (grow_if_needed (midState s st con g sw (C.kinematics st.q st.j) qp)).torque_history.length :=
      hc _ (by simp [channelList])
    rw [grow_if_needed_i, midState_i, grow_if_needed_foot_forces, midState_foot_forces,
      List.getElem?_set_self (by rw [hlen]; exact hlt2)]

/-- Witness for C10 on the fresh concrete robot (write index 0). -/
theorem c10_returned_equals_logged_witness :
    (step Ctriv cfgEx () () () (WooferRobot.init cfgEx 1) ()).2.2 =
      Except.ok (blend (expandMask gaitEx.active_feet) qpEx.qp_torques
        swingEx.swing_torques) ∧
    (step Ctriv cfgEx () () () (WooferRobot.init cfgEx 1) ()).2.1.torque_history[(WooferRobot.init cfgEx 1).i]? =
      some (vecToList (blend (expandMask gaitEx.active_feet) qpEx.qp_torques
        swingEx.swing_torques)) ∧
    (step Ctriv cfgEx () () () (WooferRobot.init cfgEx 1) ()).2.1.foot_forces =
      qpEx.foot_forces ∧
    (step Ctriv cfgEx () () () (WooferRobot.init cfgEx 1) ()).2.1.force_history[(WooferRobot.init cfgEx 1).i]? =
      some (vecToList qpEx.foot_forces) :=
  c10_returned_equals_logged Ctriv cfgEx () () () (WooferRobot.init cfgEx 1) () stEx
    (fun _ => 1) gaitEx swingEx qpEx rfl rfl rfl rfl rfl (recInv_init cfgEx 1)

set_option maxRecDepth 100000 in
/-- C4 counterexample: with the initial capacity of 10, the write at
index 10 grows each channel by the fixed 1000-column chunk to exactly
1010 columns — not to at least 1011 as claimed. -/
theorem c4_counterexample_capacity_1010 :
    (log_data { WooferRobot.init cfgEx 1 with i := 10 }).2.torque_history.length = 1010 ∧
    ¬ 1011 ≤ (log_data { WooferRobot.init cfgEx 1 with i := 10 }).2.torque_history.length := by
  have h : (log_data { WooferRobot.init cfgEx 1 with i := 10 }).2.torque_history.length
      = 1010 := by rfl
  exact ⟨h, by rw [h]; norm_num⟩

set_option maxRecDepth 100000 in
/-- C4 as amended: when the write index reaches the current capacity,
every channel grows by the fixed 1000-column chunk with the new
columns zero-filled and the previously written columns preserved
verbatim; in particular, with initial capacity 10, the write at index
10 grows the capacity to exactly 1010 (hence at least 1010) and leaves
columns 0 through 9 identical to their pre-growth values. -/
theorem c4_recorder_growth {s : WooferRobot} {c : Nat}
    (hlen : s.torque_history.length = c) (hi : c ≤ s.i) (hc1 : 1 ≤ c) :
    channelList (grow_if_needed s) = (channelList s).map growChannel ∧
    (∀ buf : List (List ℚ),
      (growChannel buf).length = buf.length + 1000 ∧
      (∀ j, j < buf.length → (growChannel buf)[j]? = buf[j]?) ∧
      (∀ j, buf.length ≤ j → j < buf.length + 1000 →
        (growChannel buf)[j]? = some (List.replicate (buf.headD []).length 0))) ∧
    (log_data { WooferRobot.init cfgEx 1 with i := 10 }).2.torque_history.length = 1010 ∧
    (∀ j, j < 10 →
      (log_data { WooferRobot.init cfgEx 1 with i := 10 }).2.torque_history[j]? =
        (WooferRobot.init cfgEx 1).torque_history[j]?) := by
  refine ⟨?_, ?_, by rfl, ?_⟩
  · rw [grow_if_needed_eq, if_pos (by omega), channelList_growAll]
  · intro buf
    refine ⟨growChannel_length buf, ?_, ?_⟩
    · intro j hj
      unfold growChannel
      rw [List.getElem?_append_left hj]
    · intro j hj1 hj2
      unfold growChannel
      rw [List.getElem?_append_right hj1, List.getElem?_replicate_of_lt (by omega)]
  · intro j hj
    interval_cases j <;> rfl

/-- Witness for the amended C4: the growth guard on the concrete robot
with write index 10 maps every channel through `growChannel`. -/
theorem c4_recorder_growth_witness :
    channelList (grow_if_needed { WooferRobot.init cfgEx 1 with i := 10 }) =
      (channelList { WooferRobot.init cfgEx 1 with i := 10 }).map growChannel :=
  (c4_recorder_growth (s := { WooferRobot.init cfgEx 1 with i := 10 }) (c := 10)
    rfl (by norm_num) (by norm_num)).1
